import Mathlib

/-
  Verification development for the hiking-route metrics and classification
  engine of `parse3.py` (KML route converter).

  The engine is shallowly embedded: Python floats are modelled as exact
  rationals (ℚ), Python lists as Lean lists, and the one failure mode the
  engine can hit (a ZeroDivisionError in `determine_difficulty` when the
  derived duration is zero) as an `Option` result that is `none` exactly
  when Python would raise.  Field and function names follow the source.
-/

/-! ## String primitives

`parse3.py` tests keyword membership with Python's `in` operator on
(lowercased) strings and with `re.search(f".*{kw}.*", name, re.IGNORECASE)`;
both are plain substring tests.  We model them over `List Char`. -/

/-- `begList pat l` is true when `pat` occurs at the very start of `l`. -/
def begList : List Char → List Char → Bool
  | [], _ => true
  | _ :: _, [] => false
  | a :: as, b :: bs => a == b && begList as bs

/-- `subList pat l` is true when `pat` occurs contiguously somewhere in `l`
(Python's `pat in l`). -/
def subList (pat : List Char) : List Char → Bool
  | [] => begList pat []
  | l@(_ :: t) => begList pat l || subList pat t

/-- Case-sensitive substring test on strings, Python's `pat in hay`. -/
def containsStr (hay pat : String) : Bool :=
  subList pat.toList hay.toList

/-- Python's `str.lower()`: character-wise lowercasing.  (`String.toLower`
itself recurses by well-founded recursion over byte positions, which the
kernel cannot evaluate; mapping `Char.toLower` over the character list is
the same function and evaluates.) -/
def toLowerStr (s : String) : String :=
  String.mk (s.data.map Char.toLower)

/-! ## Data model -/

/-- One coordinate sample of a route: `{"longitude": .., "latitude": ..,
"elevation": ..}` as built by `parse_kml_file` from a LineString vertex. -/
structure TrackPoint where
  longitude : ℚ
  latitude : ℚ
  elevation : ℚ
deriving DecidableEq, Repr

/-- Modelled from the spec: the Geodesic Distance Utility
(`geopy.distance.geodesic(..).kilometers` in the source) is an external
collaborator whose implementation the spec leaves open ("ellipsoidal or
great-circle model — implementation may choose"), requiring only a
consistent, nonnegative distance in kilometers between two
(latitude, longitude) pairs, zero on coincident pairs and symmetric.  We
use a computable such distance: the taxicab metric on degrees, scaled by
~111.19 km/degree (the equatorial meter per degree).  This model is
positive on any two pairs differing in a raw coordinate, which is stronger
than geopy (geopy also returns 0 for identical poles with different
longitudes and for 360-degree-wrapped longitudes); no claim theorem relies
on that extra positivity — only on nonnegativity, symmetry and
d(x, x) = 0, which geopy shares. -/
def geodesic_km (a b : ℚ × ℚ) : ℚ :=
  (11119 / 100) * (|a.1 - b.1| + |a.2 - b.2|)

/-! ## Route-Length Calculator (`calculate_route_length`) -/

/-- `calculate_route_length(coordinates)`: sums geodesic distances between
consecutive points; the Python loop over `range(1, len(coordinates))`
becomes structural recursion over adjacent pairs. -/
def calculate_route_length : List TrackPoint → ℚ
  | [] => 0
  | [_] => 0
  | a :: b :: rest =>
      geodesic_km (a.latitude, a.longitude) (b.latitude, b.longitude) +
        calculate_route_length (b :: rest)

/-! ## Elevation-Gain Estimator (`calculate_total_ascent`) -/

/-- The moving-average smoothing pass of `calculate_total_ascent`:
for each index `i`, the window is the comprehension
`[route_data[j]["elevation"] for j in range(max(0, i-2), min(n, i+3))]`
and the smoothed value its arithmetic mean.  (Nat subtraction `i - 2`
is Python's `max(0, i - 2)`.) -/
def smoothedElevations (route_data : List TrackPoint) : List ℚ :=
  (List.range route_data.length).map fun i =>
    let start_idx := i - 2
    let end_idx := min route_data.length (i + 2 + 1)
    let window := (List.range' start_idx (end_idx - start_idx)).map
      fun j => (route_data.getD j ⟨0, 0, 0⟩).elevation
    window.sum / window.length

/-- One iteration of the climb-accumulation loop of `calculate_total_ascent`.
State is `(total_ascent, current_climb, last_valid_elevation)`. -/
def ascentStep (st : ℚ × ℚ × ℚ) (e : ℚ) : ℚ × ℚ × ℚ :=
  let elevation_diff := e - st.2.2
  if |elevation_diff| < 5 then st
  else if elevation_diff > 0 then (st.1, st.2.1 + elevation_diff, e)
  else ((if st.2.1 ≥ 10 then st.1 + st.2.1 else st.1), 0, e)

/-- `calculate_total_ascent(route_data)`: smoothing followed by the
noise-filtered climb accumulation, plus the trailing-climb flush. -/
def calculate_total_ascent (route_data : List TrackPoint) : ℚ :=
  if route_data.length < 2 then 0
  else
    match smoothedElevations route_data with
    | [] => 0
    | s0 :: rest =>
        let st := rest.foldl ascentStep (0, 0, s0)
        if st.2.1 ≥ 10 then st.1 + st.2.1 else st.1

/-! ## Route-Shape Classifier -/

/-- `determine_route_type(name)`: keyword tier over the lowercased name. -/
def determine_route_type (name : String) : String :=
  let name_lower := toLowerStr name
  if containsStr name_lower "loop" || containsStr name_lower "环线" then
    "loop"
  else if containsStr name_lower "out and back" || containsStr name_lower "折返" ||
      containsStr name_lower "outback" then
    "outAndBack"
  else if containsStr name_lower "point to point" || containsStr name_lower "穿越" ||
      containsStr name_lower "pointtopoint" then
    "pointToPoint"
  else
    "other"

/-- `determine_route_type_by_coordinates(coordinates)`: the geometric
fallback.  `coordinates[0]`, `coordinates[-1]` and `coordinates[mid]` are
modelled with `getD` (the guard `len < 2` keeps every access in range). -/
def determine_route_type_by_coordinates (coordinates : List TrackPoint) : String :=
  if coordinates.length < 2 then "other"
  else
    let p0 := coordinates.getD 0 ⟨0, 0, 0⟩
    let pn := coordinates.getD (coordinates.length - 1) ⟨0, 0, 0⟩
    let start_point := (p0.latitude, p0.longitude)
    let end_point := (pn.latitude, pn.longitude)
    let start_end_distance := geodesic_km start_point end_point
    let total_length := calculate_route_length coordinates
    if start_end_distance < total_length * 0.1 then
      let mid_index := coordinates.length / 2
      let pm := coordinates.getD mid_index ⟨0, 0, 0⟩
      let mid_point := (pm.latitude, pm.longitude)
      let mid_to_start := geodesic_km start_point mid_point
      if |mid_to_start * 2 - total_length| < total_length * 0.3 then "outAndBack"
      else "loop"
    else "pointToPoint"

/-- The two-tier composition used in `parse_kml_file`: name tier first,
geometric fallback only when it yields `"other"`. -/
def routeShapeOf (name : String) (coordinates : List TrackPoint) : String :=
  let route_type := determine_route_type name
  if route_type = "other" then determine_route_type_by_coordinates coordinates
  else route_type

/-! ## Feature Tagger (`determine_features`) -/

/-- The keyword table of `determine_features`, in source (insertion) order;
each entry is (keyword alternatives, tag). -/
def feature_keywords : List (List String × String) :=
  [ (["瀑", "瀑布", "waterfall"], "waterfall"),
    (["湖", "lake"], "lake"),
    (["岭", "梁", "峰", "山", "mountain"], "mountain"),
    (["林", "森林", "forest"], "forest"),
    (["沟", "溪", "河", "river"], "river"),
    (["峡", "峡谷", "canyon"], "canyon"),
    (["洞", "cave"], "cave"),
    (["海滩", "beach"], "beach"),
    (["城市景观", "cityview"], "cityView"),
    (["野生动物", "wildlife"], "wildlife"),
    (["历史", "historical"], "historical"),
    (["露营", "camping"], "camping"),
    (["宠物友好", "petfriendly"], "petFriendly"),
    (["家庭友好", "familyfriendly"], "familyFriendly"),
    (["秘", "隐秘", "hidden"], "hidden"),
    (["景", "壮观景色", "epicview"], "epicView") ]

/-- `determine_features(name)`: for each table row, if any keyword matches
case-insensitively as a substring of the name, append the tag once. -/
def determine_features (name : String) : List String :=
  feature_keywords.foldl
    (fun features p =>
      if p.1.any (fun kw => containsStr (toLowerStr name) kw) && !(features.contains p.2)
      then features ++ [p.2] else features)
    []

/-! ## Difficulty Classifier (`determine_difficulty`) -/

/-- `determine_difficulty(d, h, t)`: the physiological-load model.  Python
raises `ZeroDivisionError` when `max_reserve == 0.0` (exactly `t = 0`); we
return `none` there, mirroring the raised exception. -/
def determine_difficulty (d h t : ℚ) : Option String :=
  let r : ℚ := 60
  let m : ℚ := 5
  let M : ℚ := 70
  let H : ℚ := 1.75
  let d := d * 1000
  let t := t * 3600
  let S := 13 * (60 * r * t + 1587.6 * d + 23709.6 * h + 100.8 * m * t +
      (201 / (H * H)) * M * t - 4049.4 * t) / 50000
  let reserve_heartbeats := S - (r * t / 60)
  let max_hr : ℚ := 220 - 30
  let max_reserve := (max_hr - r) * t / 60
  if max_reserve = 0 then none
  else
    let reserve_percentage := (reserve_heartbeats / max_reserve) * 100
    some (if reserve_percentage < 35 then "easy"
      else if reserve_percentage < 60 then "moderate"
      else if reserve_percentage < 80 then "hard"
      else "expert")

/-! ## Metadata Extractor / Route Builder

The tree walk of `parse_kml_file` / `process_features`.  A KML extended-data
element carries a string value; the source applies `float(data.value)` to it
for the four numeric fields and stores the raw string for `difficulty`.  We
carry both readings in the element (`value` the raw string, `valueNum` the
parsed number); extended attributes whose numeric parse would fail — which
the source silently swallows via `try/except` — are outside every claim and
not modelled. -/

/-- One element of a feature's `extended_data.elements` list. -/
structure ExtElement where
  key : String
  value : String
  valueNum : ℚ
deriving DecidableEq, Repr

/-- The `route_metadata` accumulator dictionary of `parse_kml_file`.
Note the source initializes `total_ascent`/`total_descent` to `0`
(not `None`), and the remaining fields to `None`. -/
structure RouteMetadata where
  name : Option String
  description : Option String
  total_ascent : ℚ
  total_descent : ℚ
  estimated_time : Option ℚ
  distance : Option ℚ
  difficulty : Option String
deriving DecidableEq, Repr

/-- The accumulator's initial value (lines 259-267 of the source). -/
def initMetadata : RouteMetadata :=
  { name := none, description := none, total_ascent := 0, total_descent := 0,
    estimated_time := none, distance := none, difficulty := none }

/-- `if 'ascent' in name: route_metadata["total_ascent"] = float(data.value)`
— note: no first-match guard, the assignment is unconditional. -/
def setAscent (md : RouteMetadata) (e : ExtElement) : RouteMetadata :=
  if containsStr (toLowerStr e.key) "ascent" then { md with total_ascent := e.valueNum } else md

/-- `if 'descent' in name: ...` (unconditional assignment). -/
def setDescent (md : RouteMetadata) (e : ExtElement) : RouteMetadata :=
  if containsStr (toLowerStr e.key) "descent" then { md with total_descent := e.valueNum } else md

/-- `if 'time' in name or 'duration' in name: ...` (unconditional). -/
def setTime (md : RouteMetadata) (e : ExtElement) : RouteMetadata :=
  if containsStr (toLowerStr e.key) "time" || containsStr (toLowerStr e.key) "duration" then
    { md with estimated_time := some e.valueNum } else md

/-- `if 'mileage' in name: route_metadata["distance"] = float(data.value)/1000`
(unconditional). -/
def setMileage (md : RouteMetadata) (e : ExtElement) : RouteMetadata :=
  if containsStr (toLowerStr e.key) "mileage" then
    { md with distance := some (e.valueNum / 1000) } else md

/-- `if 'difficulty' in name: route_metadata["difficulty"] = data.value`
(unconditional; raw string value). -/
def setDifficulty (md : RouteMetadata) (e : ExtElement) : RouteMetadata :=
  if containsStr (toLowerStr e.key) "difficulty" then
    { md with difficulty := some e.value } else md

/-- Processing of a single extended-data element: the five independent
`if` statements of the source, in order. -/
def applyExt (md : RouteMetadata) (e : ExtElement) : RouteMetadata :=
  setDifficulty (setMileage (setTime (setDescent (setAscent md e) e) e) e) e

/-- A feature's geometry: only `LineString` contributes coordinates; every
other geometry kind is ignored by the walk.  A LineString vertex is 2- or
3-dimensional: `coord[2] if len(coord) > 2 else 0`. -/
inductive Geometry where
  | lineString (coords : List (ℚ × ℚ × Option ℚ))
  | nonLine
deriving DecidableEq, Repr

/-- A node of the KML feature tree as the walk observes it: optional name
and description, extended-data elements, child features, optional geometry. -/
inductive Feature where
  | node (name : Option String) (description : Option String)
      (extData : List ExtElement) (children : List Feature)
      (geom : Option Geometry)
deriving Repr

/-- Building a `TrackPoint` from a raw LineString vertex (lon, lat, elev?). -/
def coordToPoint (c : ℚ × ℚ × Option ℚ) : TrackPoint :=
  { longitude := c.1, latitude := c.2.1, elevation := c.2.2.getD 0 }

mutual

/-- `process_features(feature)`: first name/description (first-match-wins),
then the extended-data elements, then the recursive walk of child features,
then the feature's own geometry appended to `route_data`.  The state is
`(route_data, route_metadata)`. -/
def processFeature (st : List TrackPoint × RouteMetadata) :
    Feature → List TrackPoint × RouteMetadata
  | Feature.node nm ds exts chs geom =>
    let md0 := st.2
    let md1 := if md0.name = none then { md0 with name := nm } else md0
    let md2 := if md1.description = none then { md1 with description := ds } else md1
    let md3 := exts.foldl applyExt md2
    let st3 := processList (st.1, md3) chs
    let pts4 := match geom with
      | some (Geometry.lineString cs) => st3.1 ++ cs.map coordToPoint
      | _ => st3.1
    (pts4, st3.2)
termination_by structural f => f

/-- The loop `for f in feature.features: process_features(f)`. -/
def processList (st : List TrackPoint × RouteMetadata) :
    List Feature → List TrackPoint × RouteMetadata
  | [] => st
  | f :: fs => processList (processFeature st f) fs
termination_by structural fs => fs

end

mutual

/-- The sequence of extended-data elements a feature's walk encounters, in
traversal order (the feature's own elements, then its children's). -/
def extSeq : Feature → List ExtElement
  | Feature.node _ _ exts chs _ => exts ++ extSeqList chs
termination_by structural f => f

/-- `extSeq` over a list of sibling features, in order. -/
def extSeqList : List Feature → List ExtElement
  | [] => []
  | f :: fs => extSeq f ++ extSeqList fs
termination_by structural fs => fs

end

/-- The value of the last element of `es` under `f`, or `dflt` when `es` is
empty — "last assignment wins" as a fold. -/
def lastVal (f : ExtElement → α) (es : List ExtElement) (dflt : α) : α :=
  es.foldl (fun _ e => f e) dflt

/-- `length = route_metadata["distance"] if route_metadata["distance"] else
calculate_route_length(route_data)` — Python truthiness: `None` and `0.0`
are falsy. -/
def resolveLength (pts : List TrackPoint) (md : RouteMetadata) : ℚ :=
  match md.distance with
  | some v => if v = 0 then calculate_route_length pts else v
  | none => calculate_route_length pts

/-- `elevation_change = route_metadata["total_ascent"] if
route_metadata["total_ascent"] else calculate_total_ascent(route_data)`. -/
def resolveElevation (pts : List TrackPoint) (md : RouteMetadata) : ℚ :=
  if md.total_ascent = 0 then calculate_total_ascent pts else md.total_ascent

/-- The Chinese label used in the auto-generated description
(`difficulty_cn.get(difficulty, '未知')`). -/
def difficulty_cn (difficulty : String) : String :=
  if difficulty = "easy" then "轻松"
  else if difficulty = "moderate" then "进阶"
  else if difficulty = "hard" then "困难"
  else if difficulty = "expert" then "超难"
  else "未知"

/-- Rendering of a rational in the synthesized description.  Python formats
with `:.1f`/`:.0f`; the exact decimal digits are irrelevant to every claim,
so we render the exact rational instead of re-implementing float printing. -/
def fmtQ (q : ℚ) : String :=
  toString q.num ++ "/" ++ toString q.den

/-- The templated description synthesized from the resolved metrics. -/
def autoDescription (length : ℚ) (difficulty : String) (elevation time : ℚ) : String :=
  "这是一条长度为" ++ fmtQ length ++ "公里的" ++ difficulty_cn difficulty ++
    "级别徒步路线，累计爬升" ++ fmtQ elevation ++ "米，预计完成时间约" ++ fmtQ time ++ "小时。"

/-- `"<div>经度" in description or "<div>纬度" in description`
(case-sensitive `in`). -/
def hasCoordMarkup (s : String) : Bool :=
  containsStr s "<div>经度" || containsStr s "<div>纬度"

/-- The final route record (`route_info`).  The wall-clock timestamp fields
(`createdAt`/`updatedAt`, from `datetime.now()`) and the always-`None`
`objectId` are the only fields not carried; no claim mentions them. -/
structure RouteInfo where
  description : String
  features : List String
  coordinates : List TrackPoint
  elevation : ℚ
  difficulty : String
  name : String
  rtype : String
  reviewCount : ℕ
  status : String
  thumbnailImage : String
  length : ℚ
  estimatedTime : ℚ
  rating : ℕ
deriving DecidableEq, Repr

/-- The assembly tail of `parse_kml_file` (lines 336-393): resolve length,
elevation, duration and difficulty, synthesize description/name/type, and
build `route_info`.  Returns `none` exactly when Python raises — i.e. when
the difficulty fallback is evaluated with derived duration 0
(`ZeroDivisionError` in `determine_difficulty`); Python's conditional
expression evaluates the fallback lazily, which the `match` mirrors. -/
def buildRoute (file_name : String) (pts : List TrackPoint)
    (md : RouteMetadata) : Option RouteInfo :=
  let length := resolveLength pts md
  let elevation_change := resolveElevation pts md
  let estimated_time := length / 4 + elevation_change / 250
  let difficultyOpt : Option String :=
    match md.difficulty with
    | some s => if s = "" then determine_difficulty length elevation_change estimated_time
        else some s
    | none => determine_difficulty length elevation_change estimated_time
  match difficultyOpt with
  | none => none
  | some difficulty =>
    let description :=
      match md.description with
      | some ds =>
          if hasCoordMarkup ds then
            autoDescription length difficulty elevation_change estimated_time
          else if ds = "" then
            autoDescription length difficulty elevation_change estimated_time
          else ds
      | none => autoDescription length difficulty elevation_change estimated_time
    let name := match md.name with
      | some s => if s = "" then file_name else s
      | none => file_name
    let route_type := routeShapeOf name pts
    some
      { description := description
        features := determine_features name
        coordinates := pts
        elevation := elevation_change
        difficulty := difficulty
        name := name
        rtype := route_type
        reviewCount := 0
        status := "open"
        thumbnailImage := "https://example.com/default.jpg"
        length := length
        estimatedTime := estimated_time * 3600
        rating := 5 }

/-- `parse_kml_file`, abstracted over the already-parsed feature tree (the
KML library is an external collaborator) and the document's base file name:
walk the top-level features, then assemble the route record. -/
def parse_kml_file (file_name : String) (features : List Feature) : Option RouteInfo :=
  let st := processList ([], initMetadata) features
  buildRoute file_name st.1 st.2

/-! ## Spec-side definitions

For the refinement claims (C5, C7) a second definition follows the spec's
words directly; the claim theorems compare it with the embedding above. -/

/-- Spec wording (Elevation-Gain Estimator, step 2): "for point i, average
elevations of points in index range `[i-2, i+2]` clipped to sequence
bounds".  The index set is `{ j < n | i - 2 ≤ j ∧ j ≤ i + 2 }` (over ℤ,
hence `i ≤ j + 2` over ℕ). -/
def specSmoothedAt (elevs : List ℚ) (i : ℕ) : ℚ :=
  let w := ((List.range elevs.length).filter fun j => i ≤ j + 2 && j ≤ i + 2).map
    fun j => elevs.getD j 0
  w.sum / w.length

/-- Spec wording (steps 3-7): walk the smoothed series keeping
`last_valid_elevation`, `current_climb`, `total_ascent`; skip steps with
`|diff| < 5` entirely; accumulate positive diffs; on a real descent close
out the climb when it reaches 10; flush a trailing climb of at least 10. -/
def specWalk (last_valid current_climb total : ℚ) : List ℚ → ℚ
  | [] => if current_climb ≥ 10 then total + current_climb else total
  | e :: rest =>
    let diff := e - last_valid
    if |diff| < 5 then specWalk last_valid current_climb total rest
    else if diff > 0 then specWalk e (current_climb + diff) total rest
    else specWalk e 0 (if current_climb ≥ 10 then total + current_climb else total) rest

/-- The Elevation-Gain Estimator exactly as §4.2 of the spec words it. -/
def specTotalAscent (route_data : List TrackPoint) : ℚ :=
  if route_data.length < 2 then 0
  else
    let elevs := route_data.map (·.elevation)
    match (List.range elevs.length).map (specSmoothedAt elevs) with
    | [] => 0
    | s0 :: rest => specWalk s0 0 0 rest

/-- Spec wording (Route-Shape Classifier, tier 1): the bilingual keyword
table, matched case-insensitively against the name, the first matching group
wins; no match falls through. -/
def specKeywordTable : List (List String × String) :=
  [ (["loop", "环线"], "loop"),
    (["out and back", "折返", "outback"], "outAndBack"),
    (["point to point", "穿越", "pointtopoint"], "pointToPoint") ]

/-- Tier-1 of the spec's Route-Shape Classifier: the first table row any of
whose keywords occurs (case-insensitively) in the name. -/
def specNameShape (name : String) : Option String :=
  (specKeywordTable.find? fun p => p.1.any fun kw => containsStr (toLowerStr name) kw).map
    Prod.snd

/-- The Route-Shape Classifier exactly as §4.5 of the spec words it:
keyword tier, then the geometric fallback with the 10% endpoint test and
the 30% midpoint disambiguation; degenerate input gives `"other"`. -/
def specRouteShape (name : String) (coords : List TrackPoint) : String :=
  match specNameShape name with
  | some s => s
  | none =>
    if coords.length < 2 then "other"
    else
      let s := coords.getD 0 ⟨0, 0, 0⟩
      let e := coords.getD (coords.length - 1) ⟨0, 0, 0⟩
      let startEnd := geodesic_km (s.latitude, s.longitude) (e.latitude, e.longitude)
      let totalLength := calculate_route_length coords
      if startEnd < totalLength / 10 then
        let m := coords.getD (coords.length / 2) ⟨0, 0, 0⟩
        let midDist := geodesic_km (s.latitude, s.longitude) (m.latitude, m.longitude)
        if |2 * midDist - totalLength| < 3 / 10 * totalLength then "outAndBack"
        else "loop"
      else "pointToPoint"

/-! ## Basic facts about the geodesic model and the Route-Length Calculator -/

theorem geodesic_km_nonneg (a b : ℚ × ℚ) : 0 ≤ geodesic_km a b := by
  unfold geodesic_km
  have h1 := abs_nonneg (a.1 - b.1)
  have h2 := abs_nonneg (a.2 - b.2)
  nlinarith

theorem geodesic_km_eq_zero_iff (a b : ℚ × ℚ) : geodesic_km a b = 0 ↔ a = b := by
  unfold geodesic_km
  rw [mul_eq_zero]
  constructor
  · rintro (h | h)
    · norm_num at h
    · have h1 := abs_nonneg (a.1 - b.1)
      have h2 := abs_nonneg (a.2 - b.2)
      have e1 : |a.1 - b.1| = 0 := by linarith
      have e2 : |a.2 - b.2| = 0 := by linarith
      rw [abs_eq_zero, sub_eq_zero] at e1 e2
      exact Prod.ext e1 e2
  · intro h
    subst h
    simp

theorem calculate_route_length_nonneg :
    ∀ seq : List TrackPoint, 0 ≤ calculate_route_length seq
  | [] => le_refl 0
  | [_] => le_refl 0
  | a :: b :: rest => by
      have ih := calculate_route_length_nonneg (b :: rest)
      have hg := geodesic_km_nonneg (a.latitude, a.longitude) (b.latitude, b.longitude)
      simp only [calculate_route_length]
      linarith

/-- Two track points at the same geographic position (elevation may differ). -/
def samePos (a b : TrackPoint) : Prop :=
  a.latitude = b.latitude ∧ a.longitude = b.longitude

theorem calculate_route_length_eq_zero_iff :
    ∀ seq : List TrackPoint, calculate_route_length seq = 0 ↔ List.Chain' samePos seq
  | [] => by simp [calculate_route_length]
  | [a] => by simp [calculate_route_length]
  | a :: b :: rest => by
      have ih := calculate_route_length_eq_zero_iff (b :: rest)
      have hg := geodesic_km_nonneg (a.latitude, a.longitude) (b.latitude, b.longitude)
      have hr := calculate_route_length_nonneg (b :: rest)
      simp only [calculate_route_length, List.chain'_cons]
      constructor
      · intro h
        have h1 : geodesic_km (a.latitude, a.longitude) (b.latitude, b.longitude) = 0 := by
          linarith
        have h2 : calculate_route_length (b :: rest) = 0 := by linarith
        rw [geodesic_km_eq_zero_iff, Prod.mk.injEq] at h1
        exact ⟨⟨h1.1, h1.2⟩, ih.mp h2⟩
      · rintro ⟨⟨hlat, hlon⟩, hch⟩
        have h1 : geodesic_km (a.latitude, a.longitude) (b.latitude, b.longitude) = 0 := by
          rw [geodesic_km_eq_zero_iff, Prod.mk.injEq]
          exact ⟨hlat, hlon⟩
        rw [h1, ih.mpr hch]
        ring

theorem getD_mem_of_lt {l : List TrackPoint} {i : ℕ} (h : i < l.length) (d : TrackPoint) :
    l.getD i d ∈ l := by
  rw [List.getD_eq_getElem?_getD, List.getElem?_eq_getElem h]
  exact List.getElem_mem h

/-- C3 (amended): for every coordinate sequence, the Route-Length
Calculator is nonnegative, and it returns `0` on every sequence shorter
than 2 points.  The claim's converse direction ("only if") is refuted by
the counterexample: sequences of 2 or more points can also yield 0. -/
theorem C3_route_length_nonneg_zero (seq : List TrackPoint) :
    0 ≤ calculate_route_length seq ∧
    (seq.length < 2 → calculate_route_length seq = 0) := by
  refine ⟨calculate_route_length_nonneg seq, ?_⟩
  intro h
  cases seq with
  | nil => rfl
  | cons a t =>
    cases t with
    | nil => rfl
    | cons b r =>
      simp only [List.length_cons] at h
      exact absurd h (by omega)

/-- C3 witness: instantiating the theorem at the empty sequence. -/
theorem C3_witness : calculate_route_length [] = 0 :=
  (C3_route_length_nonneg_zero []).2 (by decide)

/-- C3 counterexample: a 2-point sequence with coincident points has route
length 0 although its length is not < 2, refuting "= 0 iff length < 2". -/
theorem C3_counterexample :
    calculate_route_length [⟨0, 0, 0⟩, ⟨0, 0, 0⟩] = 0 ∧
    ¬ (([⟨0, 0, 0⟩, ⟨0, 0, 0⟩] : List TrackPoint).length < 2) := by
  constructor
  · norm_num [calculate_route_length, geodesic_km]
  · decide

/-- C10: whenever at least 2 points all share one position, route length is
0, the coincident-endpoint test `0 < 0 * 0.1` is false, and the geometric
classifier answers `pointToPoint`. -/
theorem C10_coincident_points (coords : List TrackPoint)
    (h2 : 2 ≤ coords.length)
    (hsame : ∀ p ∈ coords, ∀ q ∈ coords, samePos p q) :
    determine_route_type_by_coordinates coords = "pointToPoint" := by
  have hlen : ¬ coords.length < 2 := by omega
  have htot : calculate_route_length coords = 0 := by
    rw [calculate_route_length_eq_zero_iff, List.chain'_iff_get]
    intro i hi
    exact hsame _ (coords.get_mem _ _) _ (coords.get_mem _ _)
  have hmem0 : coords.getD 0 ⟨0, 0, 0⟩ ∈ coords :=
    getD_mem_of_lt (by omega) _
  have hmemn : coords.getD (coords.length - 1) ⟨0, 0, 0⟩ ∈ coords :=
    getD_mem_of_lt (by omega) _
  have hsp := hsame _ hmem0 _ hmemn
  have hse : geodesic_km
      ((coords.getD 0 ⟨0, 0, 0⟩).latitude, (coords.getD 0 ⟨0, 0, 0⟩).longitude)
      ((coords.getD (coords.length - 1) ⟨0, 0, 0⟩).latitude,
        (coords.getD (coords.length - 1) ⟨0, 0, 0⟩).longitude) = 0 := by
    rw [geodesic_km_eq_zero_iff, Prod.mk.injEq]
    exact ⟨hsp.1, hsp.2⟩
  simp only [determine_route_type_by_coordinates]
  rw [if_neg hlen, htot, hse, if_neg (by norm_num)]

/-- C10 witness: two identical points. -/
theorem C10_witness :
    determine_route_type_by_coordinates [⟨3, 4, 7⟩, ⟨3, 4, 9⟩] = "pointToPoint" :=
  C10_coincident_points [⟨3, 4, 7⟩, ⟨3, 4, 9⟩] (by decide)
    (by intro p hp q hq; fin_cases hp <;> fin_cases hq <;> exact ⟨rfl, rfl⟩)

/-- A document with no line geometry and no extended attributes. -/
def emptyRouteDoc : Feature := Feature.node none none [] [] none

/-- A document whose only geometry is a single-vertex LineString. -/
def singlePointDoc : Feature :=
  Feature.node none none [] [] (some (Geometry.lineString [(1, 2, some 3)]))

/-- C2: on a degenerate document (empty coordinate list or single-point
route) with no metadata, the resolved length and elevation are 0, so the
derived duration is 0 and the difficulty fallback hits the division by zero
in `max_reserve` — route building fails (Python: ZeroDivisionError escapes
`parse_kml_file` and aborts the batch), contradicting the claim. -/
theorem C2_degenerate_crash :
    parse_kml_file "empty" [emptyRouteDoc] = none ∧
    parse_kml_file "single" [singlePointDoc] = none := by
  constructor <;>
    simp [parse_kml_file, processList, processFeature, emptyRouteDoc, singlePointDoc,
      initMetadata, buildRoute, resolveLength, resolveElevation, calculate_route_length,
      calculate_total_ascent, determine_difficulty, coordToPoint]

/-- The 3-point there-and-back document of the end-to-end scenario. -/
def outAndBackDoc : Feature :=
  Feature.node (some "Test Out and Back") none [] []
    (some (Geometry.lineString [(0, 0, some 0), (0.01, 0, some 0), (0, 0, some 0)]))

/-- C8: the end-to-end scenario: type `outAndBack` (by name keyword),
elevation 0, length exactly twice the geodesic distance between the two
distinct sample positions, and difficulty `easy`. -/
theorem C8_end_to_end :
    (parse_kml_file "test" [outAndBackDoc]).map RouteInfo.rtype = some "outAndBack" ∧
    (parse_kml_file "test" [outAndBackDoc]).map RouteInfo.elevation = some 0 ∧
    (parse_kml_file "test" [outAndBackDoc]).map RouteInfo.length =
      some (2 * geodesic_km (0, 0) (0, 0.01)) ∧
    (parse_kml_file "test" [outAndBackDoc]).map RouteInfo.difficulty = some "easy" := by
  have hwalk : processList ([], initMetadata) [outAndBackDoc] =
      ([⟨0, 0, 0⟩, ⟨0.01, 0, 0⟩, ⟨0, 0, 0⟩],
        { name := some "Test Out and Back", description := none, total_ascent := 0,
          total_descent := 0, estimated_time := none, distance := none,
          difficulty := none }) := by
    simp [processList, processFeature, outAndBackDoc, initMetadata, coordToPoint]
  simp only [parse_kml_file, hwalk]
  simp [buildRoute, resolveLength, resolveElevation, calculate_route_length,
    calculate_total_ascent, smoothedElevations, ascentStep, determine_difficulty,
    geodesic_km, routeShapeOf, determine_route_type, containsStr, subList, begList,
    toLowerStr, Char.toLower, List.range_succ, List.range']
  norm_num [abs_of_nonneg]

/-- A feature carrying two extended attributes whose keys both match
`ascent`, with different values. -/
def dupAscentFeature : Feature :=
  Feature.node none none
    [{ key := "ascent", value := "100", valueNum := 100 },
     { key := "ascent", value := "200", valueNum := 200 }] [] none

/-- C1 counterexample: walking a feature with two `ascent` attributes leaves
`total_ascent = 200` — the value of the *second* (later) attribute — so the
first matching attribute does not win and later duplicates are not ignored. -/
theorem C1_counterexample :
    (processFeature ([], initMetadata) dupAscentFeature).2.total_ascent = 200 ∧
    (processFeature ([], initMetadata) dupAscentFeature).2.total_ascent ≠ 100 := by
  have h : (processFeature ([], initMetadata) dupAscentFeature).2.total_ascent = 200 := by
    simp [processFeature, processList, dupAscentFeature, initMetadata, applyExt,
      setAscent, setDescent, setTime, setMileage, setDifficulty, containsStr, subList,
      begList, toLowerStr, Char.toLower]
  refine ⟨h, ?_⟩
  rw [h]
  norm_num

/-- The end-to-end scenario document: metadata supplies `distance = 5000`
meters under a `mileage` key and no ascent-matching key; the track has a
real 400 m climb so the computed Elevation-Gain Estimator output is
nonzero. -/
def scenarioCoords : List (ℚ × ℚ × Option ℚ) :=
  [(0, 0, some 0), (0.001, 0, some 100), (0.002, 0, some 200),
    (0.003, 0, some 300), (0.004, 0, some 400)]

/-- The walked track points of `scenarioCoords`. -/
def scenarioPts : List TrackPoint := scenarioCoords.map coordToPoint

/-- The scenario document carrying the `mileage` attribute. -/
def mileageDoc : Feature :=
  Feature.node (some "Ridge Walk") none
    [{ key := "mileage", value := "5000", valueNum := 5000 }] []
    (some (Geometry.lineString scenarioCoords))

/-- C4: final assembly resolves `length` to the metadata distance when one
was supplied (nonzero, i.e. truthy), otherwise to the computed route
length; `elevation` to the metadata ascent when nonzero, otherwise to the
computed gain; `estimatedTime` is always recomputed as
`(length/4 + elevation/250)` hours (stored in seconds), never taken from
metadata; and the mileage-5000 scenario yields length exactly 5 km with
elevation equal to the Elevation-Gain Estimator output. -/
theorem C4_final_assembly :
    (∀ (pts : List TrackPoint) (md : RouteMetadata) (d : ℚ),
      md.distance = some d → d ≠ 0 → resolveLength pts md = d) ∧
    (∀ (pts : List TrackPoint) (md : RouteMetadata),
      md.distance = none → resolveLength pts md = calculate_route_length pts) ∧
    (∀ (pts : List TrackPoint) (md : RouteMetadata),
      md.total_ascent ≠ 0 → resolveElevation pts md = md.total_ascent) ∧
    (∀ (pts : List TrackPoint) (md : RouteMetadata),
      md.total_ascent = 0 → resolveElevation pts md = calculate_total_ascent pts) ∧
    (∀ (fname : String) (pts : List TrackPoint) (md : RouteMetadata) (info : RouteInfo),
      buildRoute fname pts md = some info →
        info.length = resolveLength pts md ∧
        info.elevation = resolveElevation pts md ∧
        info.estimatedTime = (info.length / 4 + info.elevation / 250) * 3600) ∧
    (∀ (fname : String) (pts : List TrackPoint) (md : RouteMetadata) (x y : Option ℚ),
      buildRoute fname pts { md with estimated_time := x } =
        buildRoute fname pts { md with estimated_time := y }) ∧
    ((parse_kml_file "sc" [mileageDoc]).map RouteInfo.length = some 5 ∧
      (parse_kml_file "sc" [mileageDoc]).map RouteInfo.elevation =
        some (calculate_total_ascent scenarioPts) ∧
      calculate_total_ascent scenarioPts ≠ 0) := by
  refine ⟨?_, ?_, ?_, ?_, ?_, ?_, ?_⟩
  · intro pts md d hd hd0
    simp [resolveLength, hd, hd0]
  · intro pts md hd
    simp [resolveLength, hd]
  · intro pts md ha
    simp [resolveElevation, ha]
  · intro pts md ha
    simp [resolveElevation, ha]
  · intro fname pts md info h
    simp only [buildRoute] at h
    split at h
    · exact Option.noConfusion h
    · injection h with h'
      subst h'
      exact ⟨rfl, rfl, rfl⟩
  · intro fname pts md x y
    rfl
  · have hwalk : processList ([], initMetadata) [mileageDoc] =
        ([⟨0, 0, 0⟩, ⟨0.001, 0, 100⟩, ⟨0.002, 0, 200⟩, ⟨0.003, 0, 300⟩, ⟨0.004, 0, 400⟩],
          { name := some "Ridge Walk", description := none, total_ascent := 0,
            total_descent := 0, estimated_time := none, distance := some 5,
            difficulty := none }) := by
      simp [processList, processFeature, mileageDoc, initMetadata, coordToPoint,
        scenarioCoords, applyExt, setAscent, setDescent, setTime, setMileage,
        setDifficulty, containsStr, subList, begList, toLowerStr, Char.toLower]
      norm_num
    simp only [parse_kml_file, hwalk]
    simp [buildRoute, resolveLength, resolveElevation, calculate_route_length,
      calculate_total_ascent, smoothedElevations, ascentStep, determine_difficulty,
      geodesic_km, routeShapeOf, determine_route_type,
      determine_route_type_by_coordinates, containsStr, subList, begList,
      toLowerStr, Char.toLower, scenarioPts, scenarioCoords, coordToPoint,
      List.range_succ, List.range']
    norm_num [abs_of_nonneg]

/-- C4 witness: the length clause at a concrete supplied distance, and the
elevation fallback clause at zero metadata ascent. -/
theorem C4_witness :
    resolveLength [] { initMetadata with distance := some 5 } = 5 ∧
    resolveElevation [] initMetadata = calculate_total_ascent [] :=
  ⟨C4_final_assembly.1 [] { initMetadata with distance := some 5 } 5 rfl (by norm_num),
    C4_final_assembly.2.2.2.1 [] initMetadata rfl⟩

/-- A document whose extended attributes supply the explicit value 0 for
both the ascent and the mileage keys, over a real track. -/
def zeroMetadataDoc : Feature :=
  Feature.node (some "Ridge Walk") none
    [{ key := "ascent", value := "0", valueNum := 0 },
     { key := "mileage", value := "0", valueNum := 0 }] []
    (some (Geometry.lineString scenarioCoords))

/-- C9: a metadata-supplied 0 is indistinguishable from an absent value:
with `distance = some 0` (mileage 0) the builder still uses the computed
route length, and with accumulator `total_ascent = 0` (initial value or an
explicit ascent attribute 0) it still uses the computed elevation gain; the
concrete document supplying both zeros gets fully computed, nonzero length
and elevation. -/
theorem C9_zero_indistinguishable_from_absent :
    (∀ (pts : List TrackPoint) (md : RouteMetadata),
      md.distance = some 0 → resolveLength pts md = calculate_route_length pts) ∧
    (∀ (pts : List TrackPoint) (md : RouteMetadata),
      md.total_ascent = 0 → resolveElevation pts md = calculate_total_ascent pts) ∧
    ((parse_kml_file "z" [zeroMetadataDoc]).map RouteInfo.length =
        some (calculate_route_length scenarioPts) ∧
      (parse_kml_file "z" [zeroMetadataDoc]).map RouteInfo.elevation =
        some (calculate_total_ascent scenarioPts) ∧
      calculate_route_length scenarioPts ≠ 0 ∧
      calculate_total_ascent scenarioPts ≠ 0) := by
  refine ⟨?_, ?_, ?_⟩
  · intro pts md hd
    simp [resolveLength, hd]
  · intro pts md ha
    simp [resolveElevation, ha]
  · have hwalk : processList ([], initMetadata) [zeroMetadataDoc] =
        ([⟨0, 0, 0⟩, ⟨0.001, 0, 100⟩, ⟨0.002, 0, 200⟩, ⟨0.003, 0, 300⟩, ⟨0.004, 0, 400⟩],
          { name := some "Ridge Walk", description := none, total_ascent := 0,
            total_descent := 0, estimated_time := none, distance := some 0,
            difficulty := none }) := by
      simp [processList, processFeature, zeroMetadataDoc, initMetadata, coordToPoint,
        scenarioCoords, applyExt, setAscent, setDescent, setTime, setMileage,
        setDifficulty, containsStr, subList, begList, toLowerStr, Char.toLower]
    simp only [parse_kml_file, hwalk]
    simp [buildRoute, resolveLength, resolveElevation, calculate_route_length,
      calculate_total_ascent, smoothedElevations, ascentStep, determine_difficulty,
      geodesic_km, routeShapeOf, determine_route_type,
      determine_route_type_by_coordinates, containsStr, subList, begList,
      toLowerStr, Char.toLower, scenarioPts, scenarioCoords, coordToPoint,
      List.range_succ, List.range']
    norm_num [abs_of_nonneg]

/-- C9 witness: the two fallback clauses at concrete metadata. -/
theorem C9_witness :
    resolveLength [] { initMetadata with distance := some 0 } = calculate_route_length [] ∧
    resolveElevation [] initMetadata = calculate_total_ascent [] :=
  ⟨C9_zero_indistinguishable_from_absent.1 [] { initMetadata with distance := some 0 } rfl,
    C9_zero_indistinguishable_from_absent.2.1 [] initMetadata rfl⟩

/-- The order of the four difficulty tiers: easy < moderate < hard < expert. -/
def difficultyRank (s : String) : ℕ :=
  if s = "easy" then 0
  else if s = "moderate" then 1
  else if s = "hard" then 2
  else 3

theorem difficultyRank_bucket_mono {p q : ℚ} (hpq : p ≤ q) :
    difficultyRank (if p < 35 then "easy" else if p < 60 then "moderate"
      else if p < 80 then "hard" else "expert") ≤
    difficultyRank (if q < 35 then "easy" else if q < 60 then "moderate"
      else if q < 80 then "hard" else "expert") := by
  split_ifs <;> simp [difficultyRank] <;> linarith

/-- C6: for fixed duration t > 0, the Difficulty Classifier is jointly
monotone non-decreasing in distance and elevation gain: it returns defined
tiers whose rank never decreases when d or h increases. -/
theorem C6_difficulty_monotone (d d' h h' t : ℚ) (ht : 0 < t) (hd : d ≤ d')
    (hh : h ≤ h') :
    ∃ a b, determine_difficulty d h t = some a ∧ determine_difficulty d' h' t = some b ∧
      difficultyRank a ≤ difficultyRank b := by
  have hD : (0 : ℚ) < (220 - 30 - 60) * (t * 3600) / 60 := by
    have he : ((220 : ℚ) - 30 - 60) * (t * 3600) / 60 = 7800 * t := by ring
    rw [he]
    linarith
  have hne : ((220 : ℚ) - 30 - 60) * (t * 3600) / 60 ≠ 0 := ne_of_gt hD
  simp only [determine_difficulty]
  rw [if_neg hne, if_neg hne]
  refine ⟨_, _, rfl, rfl, difficultyRank_bucket_mono ?_⟩
  apply mul_le_mul_of_nonneg_right _ (by norm_num : (0 : ℚ) ≤ 100)
  apply div_le_div_of_nonneg_right _ hD.le
  have h1 : (1587.6 : ℚ) * (d * 1000) ≤ 1587.6 * (d' * 1000) := by linarith
  have h2 : (23709.6 : ℚ) * h ≤ 23709.6 * h' := by linarith
  linarith

/-- C6 witness: a concrete monotone pair at t = 1 hour. -/
theorem C6_witness :
    ∃ a b, determine_difficulty 1 0 1 = some a ∧ determine_difficulty 2 300 1 = some b ∧
      difficultyRank a ≤ difficultyRank b :=
  C6_difficulty_monotone 1 2 0 300 1 (by norm_num) (by norm_num) (by norm_num)

/-! ## Last-match-wins characterization of the extended-attribute fields -/

/-- The key predicate of `if 'ascent' in name`. -/
def ascKey (e : ExtElement) : Bool := containsStr (toLowerStr e.key) "ascent"

/-- The key predicate of `if 'descent' in name`. -/
def desKey (e : ExtElement) : Bool := containsStr (toLowerStr e.key) "descent"

/-- The key predicate of `if 'time' in name or 'duration' in name`. -/
def timKey (e : ExtElement) : Bool :=
  containsStr (toLowerStr e.key) "time" || containsStr (toLowerStr e.key) "duration"

/-- The key predicate of `if 'mileage' in name`. -/
def milKey (e : ExtElement) : Bool := containsStr (toLowerStr e.key) "mileage"

/-- The key predicate of `if 'difficulty' in name`. -/
def difKey (e : ExtElement) : Bool := containsStr (toLowerStr e.key) "difficulty"

theorem applyExt_total_ascent (md : RouteMetadata) (e : ExtElement) :
    (applyExt md e).total_ascent = if ascKey e then e.valueNum else md.total_ascent := by
  unfold applyExt setDifficulty setMileage setTime setDescent setAscent ascKey
  split_ifs <;> rfl

theorem applyExt_total_descent (md : RouteMetadata) (e : ExtElement) :
    (applyExt md e).total_descent = if desKey e then e.valueNum else md.total_descent := by
  unfold applyExt setDifficulty setMileage setTime setDescent setAscent desKey
  split_ifs <;> rfl

theorem applyExt_estimated_time (md : RouteMetadata) (e : ExtElement) :
    (applyExt md e).estimated_time =
      if timKey e then some e.valueNum else md.estimated_time := by
  unfold applyExt setDifficulty setMileage setTime setDescent setAscent timKey
  split_ifs <;> rfl

theorem applyExt_distance (md : RouteMetadata) (e : ExtElement) :
    (applyExt md e).distance =
      if milKey e then some (e.valueNum / 1000) else md.distance := by
  unfold applyExt setDifficulty setMileage setTime setDescent setAscent milKey
  split_ifs <;> rfl

theorem applyExt_difficulty (md : RouteMetadata) (e : ExtElement) :
    (applyExt md e).difficulty = if difKey e then some e.value else md.difficulty := by
  unfold applyExt setDifficulty setMileage setTime setDescent setAscent difKey
  split_ifs <;> rfl

theorem lastVal_cons (f : ExtElement → α) (e : ExtElement) (es : List ExtElement)
    (d : α) : lastVal f (e :: es) d = lastVal f es (f e) := rfl

theorem lastVal_append (f : ExtElement → α) (a b : List ExtElement) (d : α) :
    lastVal f (a ++ b) d = lastVal f b (lastVal f a d) := by
  simp [lastVal, List.foldl_append]

theorem foldl_applyExt_field {α : Type} (F : RouteMetadata → α) (g : ExtElement → α)
    (p : ExtElement → Bool)
    (hstep : ∀ md e, F (applyExt md e) = if p e then g e else F md) :
    ∀ (es : List ExtElement) (md : RouteMetadata),
      F (es.foldl applyExt md) = lastVal g (es.filter p) (F md)
  | [], _ => rfl
  | e :: es, md => by
      rw [List.foldl_cons, foldl_applyExt_field F g p hstep es (applyExt md e),
        List.filter_cons]
      by_cases hp : p e
      · simp [hp, lastVal_cons, hstep]
      · simp [hp, hstep]

/-- The last-match-wins relation between a metadata value `md'`, the list
`es` of extended-attribute elements processed since state `md`: every one
of the five extended-attribute fields holds the value of the *last*
element of `es` whose key matches it, or its value in `md` when none
matches. -/
def LastMatchSpec (md' : RouteMetadata) (es : List ExtElement)
    (md : RouteMetadata) : Prop :=
  md'.total_ascent =
    lastVal (fun e => e.valueNum) (es.filter ascKey) md.total_ascent ∧
  md'.total_descent =
    lastVal (fun e => e.valueNum) (es.filter desKey) md.total_descent ∧
  md'.estimated_time =
    lastVal (fun e => some e.valueNum) (es.filter timKey) md.estimated_time ∧
  md'.distance =
    lastVal (fun e => some (e.valueNum / 1000)) (es.filter milKey) md.distance ∧
  md'.difficulty =
    lastVal (fun e => some e.value) (es.filter difKey) md.difficulty

theorem LastMatchSpec.comp {md0 md1 md2 : RouteMetadata}
    {es1 es2 : List ExtElement} (h1 : LastMatchSpec md1 es1 md0)
    (h2 : LastMatchSpec md2 es2 md1) : LastMatchSpec md2 (es1 ++ es2) md0 := by
  obtain ⟨a1, b1, c1, d1, e1⟩ := h1
  obtain ⟨a2, b2, c2, d2, e2⟩ := h2
  refine ⟨?_, ?_, ?_, ?_, ?_⟩ <;>
    simp [List.filter_append, lastVal_append, a1, b1, c1, d1, e1, a2, b2, c2, d2, e2]

theorem nameUpd_lastMatch (md : RouteMetadata) (nm : Option String) :
    LastMatchSpec (if md.name = none then { md with name := nm } else md) [] md := by
  split <;> exact ⟨rfl, rfl, rfl, rfl, rfl⟩

theorem descUpd_lastMatch (md : RouteMetadata) (ds : Option String) :
    LastMatchSpec (if md.description = none then { md with description := ds } else md)
      [] md := by
  split <;> exact ⟨rfl, rfl, rfl, rfl, rfl⟩

theorem foldl_lastMatch (es : List ExtElement) (md : RouteMetadata) :
    LastMatchSpec (es.foldl applyExt md) es md :=
  ⟨foldl_applyExt_field _ _ _ applyExt_total_ascent es md,
    foldl_applyExt_field _ _ _ applyExt_total_descent es md,
    foldl_applyExt_field _ _ _ applyExt_estimated_time es md,
    foldl_applyExt_field _ _ _ applyExt_distance es md,
    foldl_applyExt_field _ _ _ applyExt_difficulty es md⟩

mutual

theorem processFeature_lastMatch :
    ∀ (f : Feature) (st : List TrackPoint × RouteMetadata),
      LastMatchSpec (processFeature st f).2 (extSeq f) st.2
  | Feature.node nm ds exts chs geom, st => by
      simp only [processFeature, extSeq]
      exact LastMatchSpec.comp
        (LastMatchSpec.comp
          (LastMatchSpec.comp (nameUpd_lastMatch st.2 nm) (descUpd_lastMatch _ ds))
          (foldl_lastMatch exts _))
        (processList_lastMatch chs _)
termination_by structural f => f

theorem processList_lastMatch :
    ∀ (fs : List Feature) (st : List TrackPoint × RouteMetadata),
      LastMatchSpec (processList st fs).2 (extSeqList fs) st.2
  | [], _ => ⟨rfl, rfl, rfl, rfl, rfl⟩
  | f :: fs, st => by
      simp only [processList, extSeqList]
      exact LastMatchSpec.comp (processFeature_lastMatch f st)
        (processList_lastMatch fs (processFeature st f))
termination_by structural fs => fs

end

/-- C1 (amended): during a document's tree walk, each extended-attribute
field of the metadata accumulator ends up holding the value written by the
*last* matching extended attribute in traversal order (or its starting
value when none matches) — the assignments have no first-match guard, so
later duplicates overwrite earlier ones rather than being ignored. -/
theorem C1_last_match_wins (fs : List Feature)
    (st : List TrackPoint × RouteMetadata) :
    (processList st fs).2.total_ascent =
      lastVal (fun e => e.valueNum) ((extSeqList fs).filter ascKey)
        st.2.total_ascent ∧
    (processList st fs).2.total_descent =
      lastVal (fun e => e.valueNum) ((extSeqList fs).filter desKey)
        st.2.total_descent ∧
    (processList st fs).2.estimated_time =
      lastVal (fun e => some e.valueNum) ((extSeqList fs).filter timKey)
        st.2.estimated_time ∧
    (processList st fs).2.distance =
      lastVal (fun e => some (e.valueNum / 1000)) ((extSeqList fs).filter milKey)
        st.2.distance ∧
    (processList st fs).2.difficulty =
      lastVal (fun e => some e.value) ((extSeqList fs).filter difKey)
        st.2.difficulty :=
  processList_lastMatch fs st

/-! ## Equivalence of the Elevation-Gain Estimator with the spec's wording -/

theorem filter_range_interval (b a : ℕ) :
    ∀ n : ℕ, ((List.range n).filter fun j => decide (a ≤ j) && decide (j < b)) =
      List.range' a (min n b - a)
  | 0 => by simp
  | n + 1 => by
      rw [List.range_succ, List.filter_append, filter_range_interval b a n]
      by_cases hb : n < b
      · by_cases ha : a ≤ n
        · have h1 : min (n + 1) b - a = (min n b - a) + 1 := by omega
          have h2 : a + (min n b - a) = n := by omega
          rw [h1, List.range'_1_concat, h2]
          simp [ha, hb]
        · have h1 : min (n + 1) b - a = 0 := by omega
          have h2 : min n b - a = 0 := by omega
          rw [h1, h2]
          simp [ha]
      · have h1 : min (n + 1) b = min n b := by omega
        rw [h1]
        simp [hb]

theorem spec_filter_eq (n i : ℕ) :
    ((List.range n).filter fun j => i ≤ j + 2 && j ≤ i + 2) =
      List.range' (i - 2) (min n (i + 2 + 1) - (i - 2)) := by
  have hcong : ((List.range n).filter fun j => i ≤ j + 2 && j ≤ i + 2) =
      ((List.range n).filter fun j => decide (i - 2 ≤ j) && decide (j < i + 2 + 1)) := by
    apply List.filter_congr
    intro j _
    rw [decide_eq_decide.mpr (by omega : (i ≤ j + 2) ↔ (i - 2 ≤ j)),
      decide_eq_decide.mpr (by omega : (j ≤ i + 2) ↔ (j < i + 2 + 1))]
  rw [hcong, filter_range_interval]

theorem getD_elevation (l : List TrackPoint) (j : ℕ) :
    (l.getD j ⟨0, 0, 0⟩).elevation = (l.map (·.elevation)).getD j 0 := by
  rw [List.getD_eq_getElem?_getD, List.getD_eq_getElem?_getD, List.getElem?_map]
  cases l[j]? <;> rfl

theorem smoothed_eq (route_data : List TrackPoint) :
    smoothedElevations route_data =
      (List.range (route_data.map (·.elevation)).length).map
        (specSmoothedAt (route_data.map (·.elevation))) := by
  unfold smoothedElevations specSmoothedAt
  rw [List.length_map]
  apply List.map_congr_left
  intro i _
  simp only [List.length_map, spec_filter_eq, getD_elevation]

theorem foldl_ascentStep_spec (l : List ℚ) :
    ∀ (t c lv : ℚ),
      (if (l.foldl ascentStep (t, c, lv)).2.1 ≥ 10
        then (l.foldl ascentStep (t, c, lv)).1 + (l.foldl ascentStep (t, c, lv)).2.1
        else (l.foldl ascentStep (t, c, lv)).1) = specWalk lv c t l := by
  induction l with
  | nil => intro t c lv; rfl
  | cons e rest ih =>
      intro t c lv
      rw [List.foldl_cons]
      simp only [specWalk, ascentStep]
      by_cases h1 : |e - lv| < 5
      · simp only [if_pos h1]
        exact ih t c lv
      · simp only [if_neg h1]
        by_cases h2 : e - lv > 0
        · simp only [if_pos h2]
          exact ih t (c + (e - lv)) e
        · simp only [if_neg h2]
          exact ih (if c ≥ 10 then t + c else t) 0 e

/-- C5: the Elevation-Gain Estimator computes exactly the algorithm the
spec describes: 0 below 2 points; a centered moving average of window size
5 over index range [i-2, i+2] clipped to bounds; a walk that skips steps
with |diff| < 5 entirely, accumulates positive diffs, closes a climb into
the total only when it reaches 10, and flushes a trailing climb of at
least 10. -/
theorem C5_total_ascent_refines (route_data : List TrackPoint) :
    calculate_total_ascent route_data = specTotalAscent route_data := by
  simp only [calculate_total_ascent, specTotalAscent]
  by_cases h : route_data.length < 2
  · rw [if_pos h, if_pos h]
  · rw [if_neg h, if_neg h, smoothed_eq]
    cases hM : (List.range (route_data.map (·.elevation)).length).map
        (specSmoothedAt (route_data.map (·.elevation))) with
    | nil => rfl
    | cons s0 rest =>
        exact foldl_ascentStep_spec rest 0 0 s0

/-! ## Equivalence of the Route-Shape Classifier with the spec's wording -/

theorem geom_eq (coords : List TrackPoint) :
    determine_route_type_by_coordinates coords =
      (if coords.length < 2 then "other"
      else
        let s := coords.getD 0 ⟨0, 0, 0⟩
        let e := coords.getD (coords.length - 1) ⟨0, 0, 0⟩
        let startEnd := geodesic_km (s.latitude, s.longitude) (e.latitude, e.longitude)
        let totalLength := calculate_route_length coords
        if startEnd < totalLength / 10 then
          let m := coords.getD (coords.length / 2) ⟨0, 0, 0⟩
          let midDist := geodesic_km (s.latitude, s.longitude) (m.latitude, m.longitude)
          if |2 * midDist - totalLength| < 3 / 10 * totalLength then "outAndBack"
          else "loop"
        else "pointToPoint") := by
  unfold determine_route_type_by_coordinates
  by_cases hlen : coords.length < 2
  · rw [if_pos hlen, if_pos hlen]
  · rw [if_neg hlen, if_neg hlen]
    have hA : (geodesic_km ((coords.getD 0 ⟨0, 0, 0⟩).latitude, (coords.getD 0 ⟨0, 0, 0⟩).longitude)
          ((coords.getD (coords.length - 1) ⟨0, 0, 0⟩).latitude,
            (coords.getD (coords.length - 1) ⟨0, 0, 0⟩).longitude) <
          calculate_route_length coords * 0.1) ↔
        (geodesic_km ((coords.getD 0 ⟨0, 0, 0⟩).latitude, (coords.getD 0 ⟨0, 0, 0⟩).longitude)
          ((coords.getD (coords.length - 1) ⟨0, 0, 0⟩).latitude,
            (coords.getD (coords.length - 1) ⟨0, 0, 0⟩).longitude) <
          calculate_route_length coords / 10) := by
      rw [show calculate_route_length coords * 0.1 = calculate_route_length coords / 10 by
        ring]
    have hB : (|geodesic_km ((coords.getD 0 ⟨0, 0, 0⟩).latitude, (coords.getD 0 ⟨0, 0, 0⟩).longitude)
            ((coords.getD (coords.length / 2) ⟨0, 0, 0⟩).latitude,
              (coords.getD (coords.length / 2) ⟨0, 0, 0⟩).longitude) * 2 -
            calculate_route_length coords| <
          calculate_route_length coords * 0.3) ↔
        (|2 * geodesic_km ((coords.getD 0 ⟨0, 0, 0⟩).latitude, (coords.getD 0 ⟨0, 0, 0⟩).longitude)
            ((coords.getD (coords.length / 2) ⟨0, 0, 0⟩).latitude,
              (coords.getD (coords.length / 2) ⟨0, 0, 0⟩).longitude) -
            calculate_route_length coords| <
          3 / 10 * calculate_route_length coords) := by
      rw [show calculate_route_length coords * 0.3 = 3 / 10 * calculate_route_length coords by
          ring,
        show ∀ x : ℚ, x * 2 = 2 * x from fun x => by ring]
    rw [if_congr hA (if_congr hB rfl rfl) rfl]

/-- C7: the two-tier Route-Shape Classifier of the source (name-keyword
tier, then the geometric fallback exactly when the name yields `"other"`)
agrees with the spec's wording of the classifier on every name and every
coordinate list: the bilingual keyword table rows in order (loop,
outAndBack, pointToPoint), then the 10% coincident-endpoint test with the
30% midpoint disambiguation, and `"other"` for degenerate input. -/
theorem C7_route_shape_refines (name : String) (coords : List TrackPoint) :
    routeShapeOf name coords = specRouteShape name coords := by
  by_cases h1 : (containsStr (toLowerStr name) "loop" ||
      containsStr (toLowerStr name) "环线") = true
  · simp [routeShapeOf, determine_route_type, specRouteShape, specNameShape,
      specKeywordTable, h1]
  · by_cases h2 : (containsStr (toLowerStr name) "out and back" ||
        (containsStr (toLowerStr name) "折返" ||
          containsStr (toLowerStr name) "outback")) = true
    · simp [routeShapeOf, determine_route_type, specRouteShape, specNameShape,
        specKeywordTable, Bool.or_assoc, h1, h2]
    · by_cases h3 : (containsStr (toLowerStr name) "point to point" ||
          (containsStr (toLowerStr name) "穿越" ||
            containsStr (toLowerStr name) "pointtopoint")) = true
      · simp [routeShapeOf, determine_route_type, specRouteShape, specNameShape,
          specKeywordTable, Bool.or_assoc, h1, h2, h3]
      · simp only [routeShapeOf, determine_route_type, specRouteShape, specNameShape,
          specKeywordTable, Bool.or_assoc] at h1 h2 h3 ⊢
        simp [h1, h2, h3, geom_eq]
